import Mathlib

/-!
Verification of the browser-side state machines of projectwise_quart:
the MCP Status Poller (projectwise/static/js/ws_room.js) and the
WebSocket room Connection Manager (projectwise/static/js/main.js).
Both are shallow embeddings: each JS handler becomes a pure Lean
function from the relevant state (plus the inputs the handler reads)
to the updated state together with the list of observable effects
(toasts, rendered bubbles, socket and timer operations) it performs.
-/

namespace ProjectWise

/-! ## Status Poller data model (ws_room.js) -/

/-- Canonical MCP connection states, as produced by mapStatus. -/
inductive MCPState where
  | disconnected
  | connecting
  | connected
  | error
  deriving DecidableEq, Repr

/-- Shape of the JSON object returned by GET /mcp/status: the three
boolean-ish fields that mapStatus inspects (truthiness modelled as Bool). -/
structure StatusObj where
  connecting : Bool
  connected  : Bool
  error      : Bool
  deriving DecidableEq, Repr

/-- mapStatus from ws_room.js lines 301-306: fixed precedence
connecting, then connected, then error, then disconnected. -/
def mapStatus (s : StatusObj) : MCPState :=
  if s.connecting then MCPState.connecting
  else if s.connected then MCPState.connected
  else if s.error then MCPState.error
  else MCPState.disconnected

/-- mapMCPStatus from the unnamed draft file (src/unnamed/part_001
lines 91-96), the same precedence written a second time. -/
def mapMCPStatus (stateObj : StatusObj) : MCPState :=
  if stateObj.connecting then MCPState.connecting
  else if stateObj.connected then MCPState.connected
  else if stateObj.error then MCPState.error
  else MCPState.disconnected

/-- The toasts the poller can emit: the two transition notifications
(MCP connected. / MCP disconnected) and the fetch-failure warning
(Gagal memeriksa status MCP.). -/
inductive Toast where
  | mcpConnected
  | mcpDisconnected
  | fetchError
  deriving DecidableEq, Repr

/-- Module-level mutable state of the poller in ws_room.js:
__MCP_LAST_STATE (null initially), __MCP_ERR_COOLDOWN_UNTIL (0 initially),
pollMs (1500 initially) and the isRefreshing reentrancy flag. -/
structure PollState where
  lastState : Option MCPState
  errCooldownUntil : Nat
  pollMs : Nat
  isRefreshing : Bool
  deriving DecidableEq, Repr

/-- Initial poller state at page load (ws_room.js lines 294-299). -/
def initPollState : PollState :=
  { lastState := none, errCooldownUntil := 0, pollMs := 1500, isRefreshing := false }

/-- Outcome of one HTTP status fetch: a parsed status object on 2xx,
or failure (network error or non-2xx, which http throws). -/
inductive FetchRes where
  | ok (s : StatusObj)
  | fail
  deriving DecidableEq, Repr

/-- Result of one refreshStatus call: updated state, emitted toasts, and
whether restartPolling was invoked. -/
structure RefreshOut where
  st : PollState
  toasts : List Toast
  restarted : Bool
  deriving DecidableEq, Repr

/-- Body of refreshStatus (ws_room.js lines 328-363): the try/catch after
the reentrancy guard has been passed, with the finally clause clearing
isRefreshing. The fetch outcome and, on failure, the current time
Date.now() are passed in. -/
def refreshBody (st : PollState) (r : FetchRes) (now : Nat) : RefreshOut :=
  match r with
  | FetchRes.ok s =>
      let nowState := mapStatus s
      let toasts :=
        match st.lastState with
        | none => []
        | some l =>
            if nowState ≠ l then
              if (nowState = MCPState.connected ∧ l ≠ MCPState.connected) ∨
                 (nowState = MCPState.disconnected ∧ l ≠ MCPState.disconnected) then
                [if nowState = MCPState.connected then Toast.mcpConnected
                 else Toast.mcpDisconnected]
              else []
            else []
      let next := if s.connecting then 500 else 1500
      if next ≠ st.pollMs then
        { st := { st with lastState := some nowState, pollMs := next, isRefreshing := false },
          toasts := toasts, restarted := true }
      else
        { st := { st with lastState := some nowState, isRefreshing := false },
          toasts := toasts, restarted := false }
  | FetchRes.fail =>
      if st.errCooldownUntil ≤ now then
        if st.pollMs ≠ 4000 then
          { st := { st with errCooldownUntil := now + 15000, pollMs := 4000, isRefreshing := false },
            toasts := [Toast.fetchError], restarted := true }
        else
          { st := { st with errCooldownUntil := now + 15000, isRefreshing := false },
            toasts := [Toast.fetchError], restarted := false }
      else
        if st.pollMs ≠ 4000 then
          { st := { st with pollMs := 4000, isRefreshing := false },
            toasts := [], restarted := true }
        else
          { st := { st with isRefreshing := false },
            toasts := [], restarted := false }

/-- refreshStatus (ws_room.js lines 323-364): a call made while a previous
one is still running returns immediately; otherwise it sets isRefreshing,
runs the body, and the finally clause clears the flag again. -/
def refreshStatus (st : PollState) (r : FetchRes) (now : Nat) : RefreshOut :=
  if st.isRefreshing then { st := st, toasts := [], restarted := false }
  else refreshBody st r now

/-- Sequential run of completed polls: each list element carries the fetch
outcome and the Date.now() observed by that poll. -/
def runPolls (st : PollState) : List (FetchRes × Nat) → PollState × List Toast
  | [] => (st, [])
  | (r, t) :: rest =>
      let o := refreshStatus st r t
      let res := runPolls o.st rest
      (res.1, o.toasts ++ res.2)

/-- Number of connected/disconnected transition notifications in a toast list. -/
def connToasts (ts : List Toast) : Nat :=
  ts.count Toast.mcpConnected + ts.count Toast.mcpDisconnected

/-- Number of fetch-failure notifications in a toast list. -/
def errToasts (ts : List Toast) : Nat :=
  ts.count Toast.fetchError

/-- A status object whose only truthy field is connected. -/
def connObj : StatusObj := { connecting := false, connected := true, error := false }

/-- A status object whose only truthy field is error. -/
def errObj : StatusObj := { connecting := false, connected := false, error := true }

/-- Three consecutive successful polls all reporting connected. -/
def seqConnConnConn : List (FetchRes × Nat) :=
  [(FetchRes.ok connObj, 0), (FetchRes.ok connObj, 1), (FetchRes.ok connObj, 2)]

/-- Successful polls reporting connected, then error, then connected. -/
def seqConnErrConn : List (FetchRes × Nat) :=
  [(FetchRes.ok connObj, 0), (FetchRes.ok errObj, 1), (FetchRes.ok connObj, 2)]

/-- A status object whose only truthy field is connecting. -/
def connectingObj : StatusObj := { connecting := true, connected := false, error := false }

/-- A poller state whose recorded last status is disconnected. -/
def stDisc : PollState :=
  { lastState := some MCPState.disconnected, errCooldownUntil := 0, pollMs := 1500,
    isRefreshing := false }

/-! ## Interleaved poller events (for the no-overlap invariant)

The browser event loop interleaves calls to refreshStatus (from the timer
or from the command handlers) with completions of the awaited fetch. A
call made while isRefreshing is set returns before issuing a fetch; the
completion runs the rest of the body and the finally clause. The
outstanding counter tracks how many fetches are in flight. -/

/-- World state: the poller module state plus the number of in-flight
status fetches. -/
structure PollerWorld where
  ps : PollState
  outstanding : Nat
  deriving DecidableEq, Repr

/-- Event-loop events touching the poller: a refreshStatus invocation, or
the completion of the awaited fetch with its outcome and current time. -/
inductive PollEv where
  | call
  | complete (r : FetchRes) (now : Nat)
  deriving DecidableEq, Repr

/-- One event-loop step. A call hitting the isRefreshing guard returns
unchanged without issuing a fetch; otherwise it sets the flag and issues
one. A completion runs the rest of refreshStatus (refreshBody, whose
finally clause clears the flag) and retires the fetch. -/
def pollWorldStep (w : PollerWorld) : PollEv → PollerWorld × List Toast
  | PollEv.call =>
      if w.ps.isRefreshing then (w, [])
      else ({ ps := { w.ps with isRefreshing := true }, outstanding := w.outstanding + 1 }, [])
  | PollEv.complete r now =>
      if w.ps.isRefreshing then
        let o := refreshBody w.ps r now
        ({ ps := o.st, outstanding := w.outstanding - 1 }, o.toasts)
      else (w, [])

/-- The world at page load: initial poller state, no fetch in flight. -/
def initPollerWorld : PollerWorld := { ps := initPollState, outstanding := 0 }

/-- Folding a list of events from a world state. -/
def runWorld (w : PollerWorld) (evs : List PollEv) : PollerWorld :=
  evs.foldl (fun w e => (pollWorldStep w e).1) w

/-- A world with a refresh in flight, used as a concrete witness input. -/
def busyPollerWorld : PollerWorld :=
  { ps := { lastState := none, errCooldownUntil := 0, pollMs := 1500, isRefreshing := true },
    outstanding := 1 }

/-! ## Connection Manager data model (main.js, WebSocket room chat)

The handlers of main.js lines 1011-1157 become functions from the module
state wsState (plus the DOM inputs and socket readiness they read) to the
updated state and the list of effects they perform, in program order. -/

/-- Observable effects of the connection-manager handlers. -/
inductive WSEffect where
  | resetAttempt
  | setUIConnected (b : Bool)
  | renderHistory (room : String)
  | appendSelf (who content : String)
  | appendPeer (who content : String)
  | appendSystem (content : String)
  | cancelRetry
  | scheduleRetry (delayMs : Nat)
  | openSocket (room user : String)
  | closeSocket
  | sendLeave
  | sendMessage (content : String)
  | saveLastState
  deriving DecidableEq, Repr

/-- Module state wsState of main.js lines 907-914, with the timer handle
abstracted to whether a retry is pending. -/
structure WSState where
  roomId : Option String
  userId : Option String
  reconnectAttempt : Nat
  autoReconnect : Bool
  hasPendingRetry : Bool
  deriving DecidableEq, Repr

/-- wsState at page load. -/
def initWSState : WSState :=
  { roomId := none, userId := none, reconnectAttempt := 0, autoReconnect := false,
    hasPendingRetry := false }

/-- Whitespace trimming of the val helper (main.js line 918), modelling
String.prototype.trim as dropping whitespace from both ends of the
character list. -/
def jsTrim (s : String) : String :=
  String.mk (((s.data.dropWhile Char.isWhitespace).reverse.dropWhile
    Char.isWhitespace).reverse)

/-- The backoff delay of scheduleReconnect (main.js line 1014). -/
def reconnectDelay (attempt : Nat) : Nat :=
  min 30000 (1000 * 2 ^ attempt)

/-- wsAppend (main.js lines 991-1008): renders one bubble, choosing the
role from the frame type and the self flag, with the fallback sender
names of the source. -/
def wsAppend (st : WSState) (type from_ content : String) (self : Bool) : WSEffect :=
  if type = "message" then
    if self then
      WSEffect.appendSelf (if from_ ≠ "" then from_ else st.userId.getD "You") content
    else
      WSEffect.appendPeer (if from_ ≠ "" then from_ else "User") content
  else
    WSEffect.appendSystem content

/-- scheduleReconnect (main.js lines 1012-1020): a no-op when
autoReconnect is off; otherwise it clears any pending timer and arms a new
one with the capped exponential delay. -/
def scheduleReconnect (st : WSState) : WSState × List WSEffect :=
  if st.autoReconnect then
    ({ st with hasPendingRetry := true },
     [WSEffect.cancelRetry, WSEffect.scheduleRetry (reconnectDelay st.reconnectAttempt)])
  else (st, [])

/-- connectWS (main.js lines 1023-1042): reads and trims the two inputs,
rejects empty ones with an inline system notice and no further action;
otherwise stores them, stores the auto-reconnect checkbox, persists,
detaches and closes any existing socket, and opens a new one. -/
def connectWS (st : WSState) (roomInput userInput : String) (autoRC : Bool)
    (wsExists : Bool) : WSState × List WSEffect :=
  let roomId := jsTrim roomInput
  let userId := jsTrim userInput
  if roomId = "" ∨ userId = "" then
    (st, [wsAppend st "system" "" "Room ID dan User ID wajib diisi." false])
  else
    ({ st with roomId := some roomId, userId := some userId, autoReconnect := autoRC },
     [WSEffect.saveLastState] ++ (if wsExists then [WSEffect.closeSocket] else []) ++
       [WSEffect.openSocket roomId userId])

/-- ws.onopen (main.js lines 1044-1049): the first statement resets
reconnectAttempt to 0, then the UI is set connected, local history is
replayed and a system line is shown. -/
def onOpen (st : WSState) : WSState × List WSEffect :=
  ({ st with reconnectAttempt := 0 },
   [WSEffect.resetAttempt, WSEffect.setUIConnected true,
    WSEffect.renderHistory (st.roomId.getD ""),
    WSEffect.appendSystem ("Connected to room " ++ st.roomId.getD "" ++ " as " ++
      st.userId.getD "")])

/-- One item of a history frame. -/
structure HistItem where
  type : String
  from_ : String
  content : String
  deriving DecidableEq, Repr

/-- Parsed classification of an inbound frame, as produced by
parseJSONSafe plus the type discriminator of ws.onmessage. -/
inductive Frame where
  | nonJson (raw : String)
  | history (items : List HistItem)
  | message (from_ content : String)
  | other (content : String)
  deriving DecidableEq, Repr

/-- ws.onmessage (main.js lines 1051-1070): non-JSON is shown verbatim as
a system line; history items are rendered oldest to newest with the self
flag from the sender comparison; a message frame is rendered as a peer
bubble unless it originates from self (then nothing is rendered, the
optimistic echo already happened); anything else becomes a system line. -/
def onMessage (st : WSState) (f : Frame) : WSState × List WSEffect :=
  match f with
  | Frame.nonJson raw => (st, [WSEffect.appendSystem raw])
  | Frame.history items =>
      (st, items.map fun m =>
        wsAppend st m.type m.from_ m.content
          (decide (m.type = "message" ∧ st.userId = some m.from_)))
  | Frame.message from_ content =>
      if st.userId = some from_ then (st, [])
      else (st, [wsAppend st "message" from_ content false])
  | Frame.other content => (st, [WSEffect.appendSystem content])

/-- ws.onclose (main.js lines 1076-1079): update the UI, then run the
backoff scheduler. -/
def onClose (st : WSState) : WSState × List WSEffect :=
  let res := scheduleReconnect st
  (res.1, WSEffect.setUIConnected false :: res.2)

/-- ws.onerror (main.js lines 1072-1074): a system line only; it does not
itself reconnect (the following close event does). -/
def onError (st : WSState) : WSState × List WSEffect :=
  (st, [WSEffect.appendSystem "WebSocket error"])

/-- disconnectWS (main.js lines 1082-1088): close the socket when it is
still open, update the UI and clear any pending retry timer. -/
def disconnectWS (st : WSState) (wsOpenNow : Bool) : WSState × List WSEffect :=
  ({ st with hasPendingRetry := false },
   (if wsOpenNow then [WSEffect.closeSocket] else []) ++
     [WSEffect.setUIConnected false, WSEffect.cancelRetry])

/-- First half of the leave-room-btn click handler (main.js lines
1101-1116), up to the await of delay(150): forces autoReconnect off in
the state and unchecks the checkbox, and when the socket is open sends
the leave frame and shows the departure line. The pending retry timer is
not touched here: clearTimeout only runs in the second half, after the
150 ms suspension. -/
def onLeaveClickStart (st : WSState) (wsOpen : Bool) : WSState × List WSEffect :=
  let st₁ := { st with autoReconnect := false }
  if wsOpen then
    (st₁,
     [WSEffect.sendLeave,
      wsAppend st₁ "system" "" (st₁.userId.getD "You" ++ " left") false])
  else
    (st₁, [])

/-- Second half of the leave handler (main.js lines 1119-1123), run when
the 150 ms delay resumes: when the open branch was taken at the start,
close the current socket, then run disconnectWS, whose own readyState
check is passed in. -/
def onLeaveClickFinish (st : WSState) (tookOpenBranch wsOpenNow : Bool) :
    WSState × List WSEffect :=
  let res := disconnectWS st wsOpenNow
  if tookOpenBranch then (res.1, WSEffect.closeSocket :: res.2) else res

/-- The reconnect timer callback (main.js lines 1016-1019): increment the
attempt counter, then call connectWS with whatever the inputs hold. -/
def onTimerFire (st : WSState) (roomInput userInput : String) (autoRC : Bool)
    (wsExists : Bool) : WSState × List WSEffect :=
  connectWS { st with reconnectAttempt := st.reconnectAttempt + 1, hasPendingRetry := false }
    roomInput userInput autoRC wsExists

/-- The ws-form submit handler (main.js lines 1131-1149): empty input is
ignored; without an open socket a system notice is shown and nothing is
sent; otherwise the message is echoed locally as a self bubble and then
transmitted. -/
def onSubmit (st : WSState) (textInput : String) (wsOpen : Bool) : WSState × List WSEffect :=
  let text := jsTrim textInput
  if text = "" then (st, [])
  else if !wsOpen then (st, [WSEffect.appendSystem "Not connected"])
  else
    (st, [wsAppend st "message" (st.userId.getD "") text true, WSEffect.sendMessage text])

/-- Socket events delivered to an existing connection (no user action, no
timer): used to follow a trace after an explicit leave. -/
inductive SockEv where
  | opened
  | closed
  | errored
  | received (f : Frame)
  deriving DecidableEq, Repr

/-- Dispatch of a socket event to its handler. -/
def sockStep (st : WSState) : SockEv → WSState × List WSEffect
  | SockEv.opened => onOpen st
  | SockEv.closed => onClose st
  | SockEv.errored => onError st
  | SockEv.received f => onMessage st f

/-- Folding a list of socket events, concatenating the effects. -/
def runSock (st : WSState) : List SockEv → WSState × List WSEffect
  | [] => (st, [])
  | e :: rest =>
      let o := sockStep st e
      let res := runSock o.1 rest
      (res.1, o.2 ++ res.2)

/-- Recognizer for retry-scheduling effects. -/
def WSEffect.isScheduleRetry : WSEffect → Bool
  | WSEffect.scheduleRetry _ => true
  | _ => false

/-- Recognizer for socket-opening effects. -/
def WSEffect.isOpenSocket : WSEffect → Bool
  | WSEffect.openSocket _ _ => true
  | _ => false

/-- Recognizer for self (sender-side) bubbles. -/
def WSEffect.isSelfBubble : WSEffect → Bool
  | WSEffect.appendSelf _ _ => true
  | _ => false

/-- Recognizer for peer bubbles. -/
def WSEffect.isPeerBubble : WSEffect → Bool
  | WSEffect.appendPeer _ _ => true
  | _ => false

/-- A connected session state: room1 as bob, auto-reconnect on. -/
def stBob : WSState :=
  { roomId := some "room1", userId := some "bob", reconnectAttempt := 0,
    autoReconnect := true, hasPendingRetry := false }

/-- A state with a larger attempt counter and auto-reconnect on. -/
def stRetrying : WSState :=
  { roomId := some "room1", userId := some "bob", reconnectAttempt := 3,
    autoReconnect := true, hasPendingRetry := true }

/-- Events the browser event loop can run during the 150 ms suspension of
the leave handler (and equally at any later quiescent point): the armed
reconnect timer firing, or an ordinary socket event. Because the first
half of the handler has already unchecked the auto-reconnect checkbox
(main.js lines 1102-1103) and connectWS reads that checkbox (line 1032),
a timer firing after the leave click calls connectWS with the checkbox
value false. -/
inductive LeaveWindowEv where
  | timerFire (roomInput userInput : String) (wsExists : Bool)
  | sock (e : SockEv)
  deriving DecidableEq, Repr

/-- One event-loop step around the leave handler: the timer callback
(main.js lines 1016-1019) only runs while the timer is still armed. -/
def leaveWindowStep (st : WSState) : LeaveWindowEv → WSState × List WSEffect
  | LeaveWindowEv.timerFire ri ui we =>
      if st.hasPendingRetry then onTimerFire st ri ui false we else (st, [])
  | LeaveWindowEv.sock e => sockStep st e

/-- Folding a list of such events, concatenating the effects. -/
def runLeaveWindow (st : WSState) : List LeaveWindowEv → WSState × List WSEffect
  | [] => (st, [])
  | e :: rest =>
      let o := leaveWindowStep st e
      let res := runLeaveWindow o.1 rest
      (res.1, o.2 ++ res.2)

/-- A reachable pre-leave state: socket open in room1 as bob with a retry
timer still armed. It is reachable because connectWS never clears
wsState.reconnectTimer: an unexpected close schedules a retry, the user
rejoins before it fires, and the new socket opens with the timer armed. -/
def stArmed : WSState :=
  { roomId := some "room1", userId := some "bob", reconnectAttempt := 0,
    autoReconnect := true, hasPendingRetry := true }

end ProjectWise

namespace ProjectWise

/-! ## First theorems: C10 (mapStatus precedence) and C8 (initial last state) -/

/-- C10: for every raw status object the classification follows the fixed
priority connecting, connected, error, disconnected; in particular an
object with both connected and error truthy maps to connected, and the
draft duplicate mapMCPStatus agrees with mapStatus everywhere. -/
theorem C10_mapStatus_precedence (s : StatusObj) :
    (s.connecting = true → mapStatus s = MCPState.connecting) ∧
    (s.connecting = false → s.connected = true → mapStatus s = MCPState.connected) ∧
    (s.connecting = false → s.connected = false → s.error = true →
      mapStatus s = MCPState.error) ∧
    (s.connecting = false → s.connected = false → s.error = false →
      mapStatus s = MCPState.disconnected) ∧
    (s.connecting = false → s.connected = true → s.error = true →
      mapStatus s = MCPState.connected) ∧
    mapMCPStatus s = mapStatus s := by
  rcases s with ⟨c₁, c₂, c₃⟩
  cases c₁ <;> cases c₂ <;> cases c₃ <;>
    simp [mapStatus, mapMCPStatus]

/-- Witness for C10 at the concrete object with connected and error both
truthy: the result is connected. -/
theorem C10_mapStatus_precedence_witness :
    mapStatus { connecting := false, connected := true, error := true } =
      MCPState.connected :=
  (C10_mapStatus_precedence
    { connecting := false, connected := true, error := true }).2.2.2.2.1 rfl rfl rfl

/-- C8 counterexample: the recorded last state starts as null (none), not
as the canonical disconnected state. -/
theorem C8_counterexample :
    initPollState.lastState ≠ some MCPState.disconnected := by
  decide

/-- C8 amended: the recorded last state starts absent (null), and therefore
the very first completed poll, whatever its outcome, emits no
connected/disconnected transition notification. -/
theorem C8_initial_state_null :
    initPollState.lastState = none ∧
    ∀ (r : FetchRes) (now : Nat),
      connToasts (refreshStatus initPollState r now).toasts = 0 := by
  refine ⟨rfl, ?_⟩
  intro r now
  cases r with
  | ok s =>
      simp only [refreshStatus, initPollState, refreshBody]
      split_ifs <;> simp [connToasts]
  | fail =>
      simp only [refreshStatus, initPollState, refreshBody]
      split_ifs <;> simp [connToasts]

end ProjectWise

namespace ProjectWise

/-! ## Helper lemmas about refreshStatus -/

/-- When no refresh is in flight, refreshStatus runs its body. -/
theorem refreshStatus_not_busy (st : PollState) (r : FetchRes) (now : Nat)
    (h : st.isRefreshing = false) :
    refreshStatus st r now = refreshBody st r now := by
  simp [refreshStatus, h]

/-- The finally clause always leaves isRefreshing cleared. -/
theorem refreshBody_isRefreshing_false (st : PollState) (r : FetchRes) (now : Nat) :
    (refreshBody st r now).st.isRefreshing = false := by
  cases r <;> simp only [refreshBody] <;> split_ifs <;> rfl

/-- Toasts of a successful refresh depend only on the recorded and the
newly mapped state, not on the interval branch. -/
theorem refreshBody_ok_toasts (st : PollState) (s : StatusObj) (now : Nat) :
    (refreshBody st (FetchRes.ok s) now).toasts =
      match st.lastState with
      | none => []
      | some l =>
          if mapStatus s ≠ l then
            if (mapStatus s = MCPState.connected ∧ l ≠ MCPState.connected) ∨
               (mapStatus s = MCPState.disconnected ∧ l ≠ MCPState.disconnected) then
              [if mapStatus s = MCPState.connected then Toast.mcpConnected
               else Toast.mcpDisconnected]
            else []
          else [] := by
  simp only [refreshBody]
  split_ifs <;> rfl

/-- A failed refresh toasts the fetch error exactly when the cooldown has
expired. -/
theorem refreshBody_fail_toasts (st : PollState) (now : Nat) :
    (refreshBody st FetchRes.fail now).toasts =
      if st.errCooldownUntil ≤ now then [Toast.fetchError] else [] := by
  simp only [refreshBody]
  split_ifs <;> rfl

/-- Cooldown update of a failed refresh. -/
theorem refreshBody_fail_cooldown (st : PollState) (now : Nat) :
    (refreshBody st FetchRes.fail now).st.errCooldownUntil =
      if st.errCooldownUntil ≤ now then now + 15000 else st.errCooldownUntil := by
  simp only [refreshBody]
  split_ifs <;> rfl

/-- The recorded last state after a successful refresh. -/
theorem refreshBody_ok_lastState (st : PollState) (s : StatusObj) (now : Nat) :
    (refreshBody st (FetchRes.ok s) now).st.lastState = some (mapStatus s) := by
  simp only [refreshBody]
  split_ifs <;> rfl

theorem errToasts_append (a b : List Toast) :
    errToasts (a ++ b) = errToasts a + errToasts b := by
  simp [errToasts, List.count_append]

theorem connToasts_append (a b : List Toast) :
    connToasts (a ++ b) = connToasts a + connToasts b := by
  simp only [connToasts, List.count_append]
  omega

theorem runPolls_cons_snd (st : PollState) (r : FetchRes) (t : Nat)
    (rest : List (FetchRes × Nat)) :
    (runPolls st ((r, t) :: rest)).2 =
      (refreshStatus st r t).toasts ++ (runPolls (refreshStatus st r t).st rest).2 := rfl

end ProjectWise

namespace ProjectWise

/-! ## C2: transition-only notifications -/

/-- C2 counterexample: from the initial poller state, three successful
connected polls emit no connected/disconnected notification at all (not
exactly one), and the sequence connected, error, connected emits one (not
two): the first transition is suppressed because the recorded state starts
as null. -/
theorem C2_counterexample :
    connToasts (runPolls initPollState seqConnConnConn).2 ≠ 1 ∧
    connToasts (runPolls initPollState seqConnErrConn).2 ≠ 2 := by
  decide

/-- C2 amended: a connected/disconnected notification fires only on a
successful refresh whose mapped state differs from an already recorded
non-null previous state; a refresh observing the recorded state again, a
refresh with no recorded state yet, and a failed refresh all emit none,
while a refresh observing a genuine transition into connected or
disconnected emits exactly one. Consequently from the initial state the
poll sequence connected, connected, connected emits zero notifications
and connected, error, connected emits exactly one. -/
theorem C2_transition_notifications
    (st : PollState) (s : StatusObj) (l : MCPState) (now : Nat)
    (h : st.isRefreshing = false) :
    (st.lastState = none →
      connToasts (refreshStatus st (FetchRes.ok s) now).toasts = 0) ∧
    (st.lastState = some (mapStatus s) →
      connToasts (refreshStatus st (FetchRes.ok s) now).toasts = 0) ∧
    connToasts (refreshStatus st FetchRes.fail now).toasts = 0 ∧
    (st.lastState = some l → mapStatus s ≠ l →
      (mapStatus s = MCPState.connected ∨ mapStatus s = MCPState.disconnected) →
      connToasts (refreshStatus st (FetchRes.ok s) now).toasts = 1) ∧
    connToasts (runPolls initPollState seqConnConnConn).2 = 0 ∧
    connToasts (runPolls initPollState seqConnErrConn).2 = 1 := by
  rw [refreshStatus_not_busy st (FetchRes.ok s) now h,
    refreshStatus_not_busy st FetchRes.fail now h]
  refine ⟨?_, ?_, ?_, ?_, by decide, by decide⟩
  · intro hnone
    rw [refreshBody_ok_toasts, hnone]
    simp [connToasts]
  · intro hsame
    rw [refreshBody_ok_toasts, hsame]
    simp [connToasts]
  · rw [refreshBody_fail_toasts]
    split_ifs <;> simp [connToasts]
  · intro hl hne hcd
    rw [refreshBody_ok_toasts, hl]
    rcases hcd with hc | hd
    · have hlne : l ≠ MCPState.connected := fun hlc => hne (hc.trans hlc.symm)
      simp [hc, hne, hlne, Ne.symm hlne, connToasts]
    · have hlne : l ≠ MCPState.disconnected := fun hld => hne (hd.trans hld.symm)
      have hnc : mapStatus s ≠ MCPState.connected := by
        rw [hd]; intro hcontra; cases hcontra
      simp [hd, hne, hlne, Ne.symm hlne, hnc, connToasts]

/-- Witness for C2 at a state whose recorded status is disconnected: a
successful connected poll emits exactly one notification, and the two
scenario sequences evaluate to zero and one notification. -/
theorem C2_transition_notifications_witness :
    connToasts (refreshStatus stDisc (FetchRes.ok connObj) 0).toasts = 1 ∧
    connToasts (runPolls initPollState seqConnConnConn).2 = 0 ∧
    connToasts (runPolls initPollState seqConnErrConn).2 = 1 := by
  have h := C2_transition_notifications stDisc connObj MCPState.disconnected 0 rfl
  exact ⟨h.2.2.2.1 rfl (by decide) (by decide), h.2.2.2.2.1, h.2.2.2.2.2⟩

end ProjectWise

namespace ProjectWise

/-! ## C5: error-notification cooldown -/

/-- Failed polls whose times all predate the current cooldown expiry emit
no error notification and leave the cooldown untouched. -/
theorem runFails_quiet (ts : List Nat) :
    ∀ st : PollState, st.isRefreshing = false →
    (∀ t ∈ ts, t < st.errCooldownUntil) →
    errToasts (runPolls st (ts.map fun t => (FetchRes.fail, t))).2 = 0 := by
  induction ts with
  | nil =>
      intro st _ _
      simp [runPolls, errToasts]
  | cons t rest ih =>
      intro st h hts
      rw [List.map_cons, runPolls_cons_snd, errToasts_append,
        refreshStatus_not_busy st FetchRes.fail t h]
      have ht : t < st.errCooldownUntil := hts t (List.mem_cons_self _ _)
      have h1 : errToasts (refreshBody st FetchRes.fail t).toasts = 0 := by
        rw [refreshBody_fail_toasts, if_neg (by omega)]
        simp [errToasts]
      have hcd : (refreshBody st FetchRes.fail t).st.errCooldownUntil =
          st.errCooldownUntil := by
        rw [refreshBody_fail_cooldown, if_neg (by omega)]
      have h2 := ih (refreshBody st FetchRes.fail t).st
        (refreshBody_isRefreshing_false st FetchRes.fail t)
        (by
          intro u hu
          rw [hcd]
          exact hts u (List.mem_cons_of_mem _ hu))
      omega

/-- Any run of failed polls whose times all lie in a half-open 15000 ms
window starting from a common lower bound emits at most one error
notification. -/
theorem runFails_window_bound (ts : List Nat) :
    ∀ (st : PollState) (lo : Nat), st.isRefreshing = false →
    (∀ t ∈ ts, lo ≤ t ∧ t < lo + 15000) →
    errToasts (runPolls st (ts.map fun t => (FetchRes.fail, t))).2 ≤ 1 := by
  induction ts with
  | nil =>
      intro st lo _ _
      simp [runPolls, errToasts]
  | cons t rest ih =>
      intro st lo h hts
      rw [List.map_cons, runPolls_cons_snd, errToasts_append,
        refreshStatus_not_busy st FetchRes.fail t h]
      have hrf := refreshBody_isRefreshing_false st FetchRes.fail t
      by_cases hc : st.errCooldownUntil ≤ t
      · have h1 : errToasts (refreshBody st FetchRes.fail t).toasts = 1 := by
          rw [refreshBody_fail_toasts, if_pos hc]
          simp [errToasts]
        have hcd : (refreshBody st FetchRes.fail t).st.errCooldownUntil = t + 15000 := by
          rw [refreshBody_fail_cooldown, if_pos hc]
        have h2 := runFails_quiet rest (refreshBody st FetchRes.fail t).st hrf
          (by
            intro u hu
            rw [hcd]
            have ha := hts u (List.mem_cons_of_mem _ hu)
            have hb := hts t (List.mem_cons_self _ _)
            omega)
        omega
      · have h1 : errToasts (refreshBody st FetchRes.fail t).toasts = 0 := by
          rw [refreshBody_fail_toasts, if_neg hc]
          simp [errToasts]
        have h2 := ih (refreshBody st FetchRes.fail t).st lo hrf
          (fun u hu => hts u (List.mem_cons_of_mem _ hu))
        omega

/-- C5: a failed status fetch toasts the error exactly when the current
time has reached errorCooldownUntil, an emission pushes the cooldown to
now plus 15000 ms, and hence any five consecutive failed polls inside one
15 second window emit at most one error notification. -/
theorem C5_error_cooldown
    (st : PollState) (now lo : Nat) (ts : List Nat)
    (h : st.isRefreshing = false)
    (_hlen : ts.length = 5)
    (hts : ∀ t ∈ ts, lo ≤ t ∧ t < lo + 15000) :
    ((refreshStatus st FetchRes.fail now).toasts =
      if st.errCooldownUntil ≤ now then [Toast.fetchError] else []) ∧
    (st.errCooldownUntil ≤ now →
      (refreshStatus st FetchRes.fail now).st.errCooldownUntil = now + 15000) ∧
    errToasts (runPolls st (ts.map fun t => (FetchRes.fail, t))).2 ≤ 1 := by
  refine ⟨?_, ?_, runFails_window_bound ts st lo h hts⟩
  · rw [refreshStatus_not_busy st FetchRes.fail now h, refreshBody_fail_toasts]
  · intro hc
    rw [refreshStatus_not_busy st FetchRes.fail now h, refreshBody_fail_cooldown, if_pos hc]

/-- Witness for C5: from the initial poller state at time 0, with the five
failed polls at times 0 to 4. -/
theorem C5_error_cooldown_witness :
    ((refreshStatus initPollState FetchRes.fail 0).toasts =
      if initPollState.errCooldownUntil ≤ 0 then [Toast.fetchError] else []) ∧
    (initPollState.errCooldownUntil ≤ 0 →
      (refreshStatus initPollState FetchRes.fail 0).st.errCooldownUntil = 0 + 15000) ∧
    errToasts (runPolls initPollState
      (([0, 1, 2, 3, 4] : List Nat).map fun t => (FetchRes.fail, t))).2 ≤ 1 :=
  C5_error_cooldown initPollState 0 0 [0, 1, 2, 3, 4] rfl rfl (by decide)

/-! ## C6: adaptive polling interval -/

/-- C6: after a successful refresh the interval is 500 ms when the status
object reports connecting and 1500 ms otherwise, after a failed refresh it
is 4000 ms, and in both cases the polling timer is restarted exactly when
the newly computed interval differs from the previous one. -/
theorem C6_adaptive_interval
    (st : PollState) (s : StatusObj) (now : Nat)
    (h : st.isRefreshing = false) :
    ((refreshStatus st (FetchRes.ok s) now).st.pollMs =
      if s.connecting then 500 else 1500) ∧
    ((refreshStatus st (FetchRes.ok s) now).restarted = true ↔
      (if s.connecting then 500 else 1500) ≠ st.pollMs) ∧
    ((refreshStatus st FetchRes.fail now).st.pollMs = 4000) ∧
    ((refreshStatus st FetchRes.fail now).restarted = true ↔ st.pollMs ≠ 4000) := by
  rw [refreshStatus_not_busy st (FetchRes.ok s) now h,
    refreshStatus_not_busy st FetchRes.fail now h]
  refine ⟨?_, ?_, ?_, ?_⟩ <;> simp only [refreshBody] <;> split_ifs <;> simp_all

/-- Witness for C6 at the initial state with a connecting status object at
time 0. -/
theorem C6_adaptive_interval_witness :
    ((refreshStatus initPollState (FetchRes.ok connectingObj) 0).st.pollMs =
      if connectingObj.connecting then 500 else 1500) ∧
    ((refreshStatus initPollState (FetchRes.ok connectingObj) 0).restarted = true ↔
      (if connectingObj.connecting then 500 else 1500) ≠ initPollState.pollMs) ∧
    ((refreshStatus initPollState FetchRes.fail 0).st.pollMs = 4000) ∧
    ((refreshStatus initPollState FetchRes.fail 0).restarted = true ↔
      initPollState.pollMs ≠ 4000) :=
  C6_adaptive_interval initPollState connectingObj 0 rfl

end ProjectWise

namespace ProjectWise

/-! ## C4: no overlapping status fetches -/

/-- The outstanding-fetch counter mirrors the isRefreshing flag across any
single event-loop step. -/
theorem pollWorldStep_inv (w : PollerWorld) (e : PollEv)
    (h : w.outstanding = if w.ps.isRefreshing then 1 else 0) :
    (pollWorldStep w e).1.outstanding =
      if (pollWorldStep w e).1.ps.isRefreshing then 1 else 0 := by
  cases e with
  | call =>
      by_cases hb : w.ps.isRefreshing <;> simp_all [pollWorldStep]
  | complete r now =>
      by_cases hb : w.ps.isRefreshing <;>
        simp_all [pollWorldStep, refreshBody_isRefreshing_false]

/-- The mirror invariant is preserved by any event sequence. -/
theorem runWorld_inv (evs : List PollEv) :
    ∀ w : PollerWorld, w.outstanding = (if w.ps.isRefreshing then 1 else 0) →
    (runWorld w evs).outstanding =
      if (runWorld w evs).ps.isRefreshing then 1 else 0 := by
  induction evs with
  | nil =>
      intro w h
      simpa [runWorld] using h
  | cons e rest ih =>
      intro w h
      have h1 := pollWorldStep_inv w e h
      simpa [runWorld, List.foldl_cons] using ih _ h1

/-- C4: across every interleaving of refresh invocations and fetch
completions from page load, at most one status fetch is outstanding; and a
refresh call arriving while one is in flight is a no-op that changes no
state and issues no fetch. -/
theorem C4_no_overlapping_fetches :
    (∀ evs : List PollEv, (runWorld initPollerWorld evs).outstanding ≤ 1) ∧
    (∀ w : PollerWorld, w.ps.isRefreshing = true →
      pollWorldStep w PollEv.call = (w, [])) := by
  constructor
  · intro evs
    have h := runWorld_inv evs initPollerWorld (by rfl)
    split at h <;> omega
  · intro w hw
    simp [pollWorldStep, hw]

/-- Witness for C4: a call in a busy world is the identity, and a concrete
double-call trace keeps the counter at one. -/
theorem C4_no_overlapping_fetches_witness :
    pollWorldStep busyPollerWorld PollEv.call = (busyPollerWorld, []) ∧
    (runWorld initPollerWorld [PollEv.call, PollEv.call]).outstanding ≤ 1 :=
  ⟨C4_no_overlapping_fetches.2 busyPollerWorld rfl,
   C4_no_overlapping_fetches.1 [PollEv.call, PollEv.call]⟩

/-! ## C1: reconnect backoff -/

/-- C1: on any closure while autoReconnect is on, ws.onclose schedules
exactly one retry with delay min(30000, 1000 * 2 ^ reconnectAttempt); the
timer callback increments reconnectAttempt when it fires; and on a
successful open, resetting reconnectAttempt to 0 is the first thing the
handler does. -/
theorem C1_reconnect_backoff (st : WSState) (h : st.autoReconnect = true) :
    (onClose st).2 =
      [WSEffect.setUIConnected false, WSEffect.cancelRetry,
       WSEffect.scheduleRetry (min 30000 (1000 * 2 ^ st.reconnectAttempt))] ∧
    (onClose st).1.hasPendingRetry = true ∧
    (∀ (ri ui : String) (a we : Bool),
      (onTimerFire st ri ui a we).1.reconnectAttempt = st.reconnectAttempt + 1) ∧
    (onOpen st).1.reconnectAttempt = 0 ∧
    (onOpen st).2.head? = some WSEffect.resetAttempt := by
  refine ⟨?_, ?_, ?_, rfl, rfl⟩
  · simp [onClose, scheduleReconnect, h, reconnectDelay]
  · simp [onClose, scheduleReconnect, h]
  · intro ri ui a we
    simp only [onTimerFire, connectWS]
    split_ifs <;> rfl

/-- Witness for C1 at a state with attempt counter 3 and auto-reconnect
on. -/
theorem C1_reconnect_backoff_witness :
    (onClose stRetrying).2 =
      [WSEffect.setUIConnected false, WSEffect.cancelRetry,
       WSEffect.scheduleRetry (min 30000 (1000 * 2 ^ stRetrying.reconnectAttempt))] ∧
    (onClose stRetrying).1.hasPendingRetry = true ∧
    (onTimerFire stRetrying "room1" "bob" true true).1.reconnectAttempt =
      stRetrying.reconnectAttempt + 1 ∧
    (onOpen stRetrying).1.reconnectAttempt = 0 ∧
    (onOpen stRetrying).2.head? = some WSEffect.resetAttempt := by
  have h := C1_reconnect_backoff stRetrying rfl
  exact ⟨h.1, h.2.1, h.2.2.1 "room1" "bob" true true, h.2.2.2.1, h.2.2.2.2⟩

end ProjectWise

namespace ProjectWise

/-! ## C3: explicit leave is final -/

/-- wsAppend only ever renders a bubble; it never schedules a retry. -/
theorem wsAppend_ne_scheduleRetry (st : WSState) (ty fr c : String) (self : Bool)
    (d : Nat) : wsAppend st ty fr c self ≠ WSEffect.scheduleRetry d := by
  simp only [wsAppend]
  split_ifs <;> simp

/-- With autoReconnect off, a socket event neither re-enables it nor
emits a retry-scheduling effect. -/
theorem sockStep_no_retry (st : WSState) (e : SockEv) (h : st.autoReconnect = false) :
    (sockStep st e).1.autoReconnect = false ∧
    ∀ d, WSEffect.scheduleRetry d ∉ (sockStep st e).2 := by
  cases e with
  | opened =>
      refine ⟨h, ?_⟩
      intro d
      simp [sockStep, onOpen]
  | closed =>
      constructor
      · simp [sockStep, onClose, scheduleReconnect, h]
      · intro d
        simp [sockStep, onClose, scheduleReconnect, h]
  | errored =>
      refine ⟨h, ?_⟩
      intro d
      simp [sockStep, onError]
  | received f =>
      cases f with
      | nonJson raw =>
          refine ⟨h, ?_⟩
          intro d
          simp [sockStep, onMessage]
      | history items =>
          refine ⟨h, ?_⟩
          intro d hmem
          simp only [sockStep, onMessage, List.mem_map] at hmem
          rcases hmem with ⟨m, _, hm⟩
          exact wsAppend_ne_scheduleRetry st m.type m.from_ m.content _ d hm
      | message fr content =>
          constructor
          · simp only [sockStep, onMessage]
            split_ifs <;> exact h
          · intro d
            simp only [sockStep, onMessage]
            split_ifs with hc
            · simp
            · simp only [List.mem_singleton]
              exact fun hmem => wsAppend_ne_scheduleRetry st "message" fr content false d hmem.symm
      | other content =>
          refine ⟨h, ?_⟩
          intro d
          simp [sockStep, onMessage]

/-- With autoReconnect off, no sequence of socket events ever emits a
retry-scheduling effect, and the flag stays off. -/
theorem runSock_no_retry (evs : List SockEv) :
    ∀ st : WSState, st.autoReconnect = false →
    (runSock st evs).1.autoReconnect = false ∧
    ∀ d, WSEffect.scheduleRetry d ∉ (runSock st evs).2 := by
  induction evs with
  | nil =>
      intro st h
      exact ⟨h, by intro d; simp [runSock]⟩
  | cons e rest ih =>
      intro st h
      have h1 := sockStep_no_retry st e h
      have h2 := ih (sockStep st e).1 h1.1
      refine ⟨h2.1, ?_⟩
      intro d hmem
      rw [show runSock st (e :: rest) =
        ((runSock (sockStep st e).1 rest).1,
         (sockStep st e).2 ++ (runSock (sockStep st e).1 rest).2) from rfl] at hmem
      rcases List.mem_append.mp hmem with hmem | hmem
      · exact h1.2 d hmem
      · exact h2.2 d hmem

/-- connectWS never emits a retry-scheduling effect (it also never clears
the timer: wsState.reconnectTimer is not touched anywhere in it). -/
theorem connectWS_no_retry (st : WSState) (ri ui : String) (a we : Bool) (d : Nat) :
    WSEffect.scheduleRetry d ∉ (connectWS st ri ui a we).2 := by
  simp only [connectWS]
  split_ifs <;> simp [wsAppend]

/-- connectWS called while the auto-reconnect checkbox is unchecked
leaves autoReconnect off, whether or not validation passes. -/
theorem connectWS_checkbox_off (st : WSState) (ri ui : String) (we : Bool)
    (h : st.autoReconnect = false) :
    (connectWS st ri ui false we).1.autoReconnect = false := by
  simp only [connectWS]
  split_ifs <;> first | exact h | rfl

/-- The timer callback with the checkbox unchecked leaves autoReconnect
off. -/
theorem onTimerFire_checkbox_off (st : WSState) (ri ui : String) (we : Bool)
    (h : st.autoReconnect = false) :
    (onTimerFire st ri ui false we).1.autoReconnect = false := by
  simp only [onTimerFire]
  exact connectWS_checkbox_off _ ri ui we h

/-- The timer callback never emits a retry-scheduling effect. -/
theorem onTimerFire_no_retry (st : WSState) (ri ui : String) (a we : Bool) (d : Nat) :
    WSEffect.scheduleRetry d ∉ (onTimerFire st ri ui a we).2 := by
  simp only [onTimerFire]
  exact connectWS_no_retry _ ri ui a we d

/-- Once autoReconnect is off and the checkbox unchecked, no event-loop
step re-enables it or schedules a retry: a firing timer does call
connectWS (and may open a socket) but reads the checkbox as false. -/
theorem leaveWindowStep_no_retry (st : WSState) (e : LeaveWindowEv)
    (h : st.autoReconnect = false) :
    (leaveWindowStep st e).1.autoReconnect = false ∧
    ∀ d, WSEffect.scheduleRetry d ∉ (leaveWindowStep st e).2 := by
  cases e with
  | timerFire ri ui we =>
      cases hp : st.hasPendingRetry
      · constructor
        · simp [leaveWindowStep, hp, h]
        · intro d
          simp [leaveWindowStep, hp]
      · constructor
        · have hoff := onTimerFire_checkbox_off st ri ui we h
          simpa [leaveWindowStep, hp] using hoff
        · intro d
          have hnr := onTimerFire_no_retry st ri ui false we d
          simpa [leaveWindowStep, hp] using hnr
  | sock e => exact sockStep_no_retry st e h

/-- The preservation lemma extended to whole event sequences. -/
theorem runLeaveWindow_no_retry (evs : List LeaveWindowEv) :
    ∀ st : WSState, st.autoReconnect = false →
    (runLeaveWindow st evs).1.autoReconnect = false ∧
    ∀ d, WSEffect.scheduleRetry d ∉ (runLeaveWindow st evs).2 := by
  induction evs with
  | nil =>
      intro st h
      exact ⟨h, by intro d; simp [runLeaveWindow]⟩
  | cons e rest ih =>
      intro st h
      have h1 := leaveWindowStep_no_retry st e h
      have h2 := ih (leaveWindowStep st e).1 h1.1
      refine ⟨h2.1, ?_⟩
      intro d hmem
      rw [show runLeaveWindow st (e :: rest) =
        ((runLeaveWindow (leaveWindowStep st e).1 rest).1,
         (leaveWindowStep st e).2 ++ (runLeaveWindow (leaveWindowStep st e).1 rest).2)
        from rfl] at hmem
      rcases List.mem_append.mp hmem with hmem | hmem
      · exact h1.2 d hmem
      · exact h2.2 d hmem

/-- C3 counterexample: with the socket open and a retry timer still armed
(reachable since connectWS never clears wsState.reconnectTimer), clicking
leave has not cancelled the retry when the handler suspends for its
150 ms broadcast delay, and the timer firing inside that window opens a
new socket: an automatic reconnect attempt follows the explicit
disconnect, refuting both the cancellation and the never-reconnects
parts of the claim. -/
theorem C3_counterexample :
    (onLeaveClickStart stArmed true).1.hasPendingRetry = true ∧
    WSEffect.openSocket "room1" "bob" ∈
      (leaveWindowStep (onLeaveClickStart stArmed true).1
        (LeaveWindowEv.timerFire "room1" "bob" true)).2 := by
  decide

/-- C3 amended: clicking leave immediately forces autoReconnect off (state
and checkbox), but the pending retry is untouched until the handler
resumes after its 150 ms delay, so a timer armed beforehand can still
fire inside the window and call connectWS once more; every event in that
window keeps autoReconnect off and schedules no new retry; when the
handler resumes, disconnectWS clears the pending retry and emits
cancelRetry, and afterwards no socket event or timer event ever schedules
an automatic reconnect. -/
theorem C3_leave_window_final (st : WSState) (wsOpen wsOpenAtFinish : Bool)
    (wevs post : List LeaveWindowEv) :
    (onLeaveClickStart st wsOpen).1.autoReconnect = false ∧
    (onLeaveClickStart st wsOpen).1.hasPendingRetry = st.hasPendingRetry ∧
    (runLeaveWindow (onLeaveClickStart st wsOpen).1 wevs).1.autoReconnect = false ∧
    (∀ d, WSEffect.scheduleRetry d ∉
      (runLeaveWindow (onLeaveClickStart st wsOpen).1 wevs).2) ∧
    (onLeaveClickFinish (runLeaveWindow (onLeaveClickStart st wsOpen).1 wevs).1
        wsOpen wsOpenAtFinish).1.hasPendingRetry = false ∧
    WSEffect.cancelRetry ∈
      (onLeaveClickFinish (runLeaveWindow (onLeaveClickStart st wsOpen).1 wevs).1
        wsOpen wsOpenAtFinish).2 ∧
    (∀ d, WSEffect.scheduleRetry d ∉
      (runLeaveWindow (onLeaveClickFinish
          (runLeaveWindow (onLeaveClickStart st wsOpen).1 wevs).1
          wsOpen wsOpenAtFinish).1 post).2) := by
  have hstart : (onLeaveClickStart st wsOpen).1.autoReconnect = false := by
    simp only [onLeaveClickStart]
    split_ifs <;> rfl
  have hpend : (onLeaveClickStart st wsOpen).1.hasPendingRetry = st.hasPendingRetry := by
    simp only [onLeaveClickStart]
    split_ifs <;> rfl
  have hwin := runLeaveWindow_no_retry wevs (onLeaveClickStart st wsOpen).1 hstart
  have hfin_auto : (onLeaveClickFinish
      (runLeaveWindow (onLeaveClickStart st wsOpen).1 wevs).1
      wsOpen wsOpenAtFinish).1.autoReconnect =
      (runLeaveWindow (onLeaveClickStart st wsOpen).1 wevs).1.autoReconnect := by
    simp only [onLeaveClickFinish, disconnectWS]
    split_ifs <;> rfl
  have hfin_pend : (onLeaveClickFinish
      (runLeaveWindow (onLeaveClickStart st wsOpen).1 wevs).1
      wsOpen wsOpenAtFinish).1.hasPendingRetry = false := by
    simp only [onLeaveClickFinish, disconnectWS]
    split_ifs <;> rfl
  have hfin_cancel : WSEffect.cancelRetry ∈
      (onLeaveClickFinish (runLeaveWindow (onLeaveClickStart st wsOpen).1 wevs).1
        wsOpen wsOpenAtFinish).2 := by
    simp only [onLeaveClickFinish, disconnectWS]
    split_ifs <;> simp
  have hpost := runLeaveWindow_no_retry post
    (onLeaveClickFinish (runLeaveWindow (onLeaveClickStart st wsOpen).1 wevs).1
      wsOpen wsOpenAtFinish).1 (by rw [hfin_auto]; exact hwin.1)
  exact ⟨hstart, hpend, hwin.1, hwin.2, hfin_pend, hfin_cancel, hpost.2⟩

end ProjectWise

namespace ProjectWise

/-! ## C7: self-echo suppression round trip -/

/-- A self message frame renders as exactly one appendSelf effect. -/
theorem wsAppend_message_self (st : WSState) (fr c : String) :
    wsAppend st "message" fr c true =
      WSEffect.appendSelf (if fr ≠ "" then fr else st.userId.getD "You") c := by
  simp [wsAppend]

/-- A peer message frame renders as exactly one appendPeer effect. -/
theorem wsAppend_message_peer (st : WSState) (fr c : String) :
    wsAppend st "message" fr c false =
      WSEffect.appendPeer (if fr ≠ "" then fr else "User") c := by
  simp [wsAppend]

/-- C7: in a connected session, submitting a nonempty message renders
exactly one local self bubble (and no peer bubble), and a subsequently
received message frame renders exactly one additional peer bubble when its
sender differs from the local user id and nothing at all when the sender
is the local user. -/
theorem C7_self_echo (st : WSState) (selfId text fr content : String)
    (h : st.userId = some selfId) (ht : jsTrim text ≠ "") :
    ((onSubmit st text true).2.countP WSEffect.isSelfBubble = 1 ∧
     (onSubmit st text true).2.countP WSEffect.isPeerBubble = 0) ∧
    (fr ≠ selfId →
      (onMessage st (Frame.message fr content)).2.countP WSEffect.isPeerBubble = 1 ∧
      (onMessage st (Frame.message fr content)).2.countP WSEffect.isSelfBubble = 0) ∧
    (fr = selfId → (onMessage st (Frame.message fr content)).2 = []) := by
  refine ⟨?_, ?_, ?_⟩
  · simp only [onSubmit, if_neg ht, Bool.not_true, if_neg (by simp : ¬(false = true))]
    rw [wsAppend_message_self]
    constructor <;>
      simp [List.countP_cons, WSEffect.isSelfBubble, WSEffect.isPeerBubble]
  · intro hfr
    have hno : ¬(st.userId = some fr) := by
      rw [h]
      intro hcontra
      exact hfr (Option.some.inj hcontra).symm
    simp only [onMessage, if_neg hno]
    rw [wsAppend_message_peer]
    constructor <;>
      simp [List.countP_cons, WSEffect.isSelfBubble, WSEffect.isPeerBubble]
  · intro hfr
    have hyes : st.userId = some fr := by rw [h, hfr]
    simp [onMessage, hyes]

/-- Witness for C7 in the session room1/bob: sending hi echoes one self
bubble, a frame from alice adds one peer bubble, a frame from bob adds
nothing. -/
theorem C7_self_echo_witness :
    ((onSubmit stBob "hi" true).2.countP WSEffect.isSelfBubble = 1 ∧
     (onSubmit stBob "hi" true).2.countP WSEffect.isPeerBubble = 0) ∧
    ((onMessage stBob (Frame.message "alice" "hi")).2.countP WSEffect.isPeerBubble = 1 ∧
     (onMessage stBob (Frame.message "alice" "hi")).2.countP WSEffect.isSelfBubble = 0) ∧
    (onMessage stBob (Frame.message "bob" "hi")).2 = [] := by
  have ha := C7_self_echo stBob "bob" "hi" "alice" "hi" rfl (by decide)
  have hb := C7_self_echo stBob "bob" "hi" "bob" "hi" rfl (by decide)
  exact ⟨ha.1, ha.2.1 (by decide), hb.2.2 rfl⟩

/-! ## C9: connect validation precondition -/

/-- C9: calling connectWS with an empty (after trimming) room or user id
only shows the inline validation notice: the state is unchanged, no socket
is opened, no existing socket is closed, and no retry is scheduled. -/
theorem C9_connect_validation (st : WSState) (roomInput userInput : String)
    (autoRC wsExists : Bool) (h : jsTrim roomInput = "" ∨ jsTrim userInput = "") :
    connectWS st roomInput userInput autoRC wsExists =
      (st, [WSEffect.appendSystem "Room ID dan User ID wajib diisi."]) ∧
    (connectWS st roomInput userInput autoRC wsExists).1 = st ∧
    (∀ r u, WSEffect.openSocket r u ∉ (connectWS st roomInput userInput autoRC wsExists).2) ∧
    WSEffect.closeSocket ∉ (connectWS st roomInput userInput autoRC wsExists).2 ∧
    (∀ d, WSEffect.scheduleRetry d ∉ (connectWS st roomInput userInput autoRC wsExists).2) := by
  have he : connectWS st roomInput userInput autoRC wsExists =
      (st, [WSEffect.appendSystem "Room ID dan User ID wajib diisi."]) := by
    simp only [connectWS]
    rw [if_pos h]
    simp [wsAppend]
  refine ⟨he, by rw [he], ?_, ?_, ?_⟩
  · intro r u
    rw [he]
    simp
  · rw [he]
    simp
  · intro d
    rw [he]
    simp

/-- Witness for C9: connecting as room1 with an empty user id from the
fresh state. -/
theorem C9_connect_validation_witness :
    connectWS initWSState "room1" "" true false =
      (initWSState, [WSEffect.appendSystem "Room ID dan User ID wajib diisi."]) ∧
    (connectWS initWSState "room1" "" true false).1 = initWSState ∧
    (∀ r u, WSEffect.openSocket r u ∉ (connectWS initWSState "room1" "" true false).2) ∧
    WSEffect.closeSocket ∉ (connectWS initWSState "room1" "" true false).2 ∧
    (∀ d, WSEffect.scheduleRetry d ∉ (connectWS initWSState "room1" "" true false).2) :=
  C9_connect_validation initWSState "room1" "" true false (Or.inr (by decide))

end ProjectWise
